import Mathlib

/-!
Verification development for the hreflang-analysis tool
(`src/streamlit_app.py`).  The network layer (`requests`), the HTML
parser (`BeautifulSoup`) and the XML parser (`xml.etree.ElementTree`)
are external effects; they are embedded as explicit inputs (a fetched
page is a value of `FetchPage`, a fetched sitemap document a value of
`Option XmlSitemap`).  Python string primitives used by the code
(`startswith`, `in`, `split`, `lower`, `join`) are embedded as
executable functions on `List Char`.
-/

/-- Model of Python `needle` being a prefix of a character list
(`str.startswith`). -/
def charsPrefixOf : List Char → List Char → Bool
  | [], _ => true
  | _ :: _, [] => false
  | c :: cs, d :: ds => c == d && charsPrefixOf cs ds

/-- Model of Python substring membership: `needle in hay`. -/
def charsInfixOf (needle : List Char) : List Char → Bool
  | [] => needle.isEmpty
  | c :: rest => charsPrefixOf needle (c :: rest) || charsInfixOf needle rest

/-- Python `s.startswith(pre)`. -/
def pyStartsWith (s pre : String) : Bool :=
  charsPrefixOf pre.toList s.toList

/-- Python `sub in s` (substring test). -/
def strContainsSub (s sub : String) : Bool :=
  charsInfixOf sub.toList s.toList

/-- Python `c in s` for a single character. -/
def pyContainsChar (s : String) (c : Char) : Bool :=
  s.toList.contains c

/-- ASCII lower-casing of one character (the fragment of Python
`str.lower` exercised by hreflang attribute values). -/
def pyLowerChar (c : Char) : Char :=
  if 'A' ≤ c && c ≤ 'Z' then Char.ofNat (c.toNat + 32) else c

/-- Python `s.lower()` (ASCII fragment). -/
def pyLower (s : String) : String :=
  String.mk (s.toList.map pyLowerChar)

/-- Python `s.split(sep)` for a one-character separator: keeps empty
fields, `''.split(sep) == ['']`. -/
def splitOnCharAux (sep : Char) : List Char → List (List Char)
  | [] => [[]]
  | c :: cs =>
    if c == sep then [] :: splitOnCharAux sep cs
    else
      match splitOnCharAux sep cs with
      | [] => [[c]]
      | p :: ps => (c :: p) :: ps

/-- Python `s.split(sep)` for a one-character separator, on strings. -/
def pySplitChar (s : String) (sep : Char) : List String :=
  (splitOnCharAux sep s.toList).map String.mk

/-- Splitting a character list on the two-character separator `"; "`,
leftmost non-overlapping occurrences, keeping empty fields — the
semantics of Python `s.split('; ')`. -/
def splitOnSemiAux : List Char → List (List Char)
  | [] => [[]]
  | [c] => [[c]]
  | ';' :: ' ' :: rest => [] :: splitOnSemiAux rest
  | c :: rest =>
    match splitOnSemiAux rest with
    | [] => [[c]]
    | p :: ps => (c :: p) :: ps

/-- Python `s.split('; ')`. -/
def pySplitSemi (s : String) : List String :=
  (splitOnSemiAux s.toList).map String.mk

/-- Python `'; '.join(l)`. -/
def pyJoinSemi : List String → String
  | [] => ""
  | [s] => s
  | s :: rest => s ++ "; " ++ pyJoinSemi rest

/-- The `[a-z]` character class of the format regex. -/
def isLowerAlpha (c : Char) : Bool := 'a' ≤ c && c ≤ 'z'

/-- Character-list shape accepted by `[a-z]{2}(-[a-z]{2})?` in full. -/
def langShape : List Char → Bool
  | [a, b] => isLowerAlpha a && isLowerAlpha b
  | [a, b, '-', c, d] => isLowerAlpha a && isLowerAlpha b && isLowerAlpha c && isLowerAlpha d
  | _ => false

/-- Model of Python `re.match(r'^[a-z]{2}(-[a-z]{2})?$', s) is not None`.
In Python, `$` also matches just before one trailing newline, hence the
second disjunct. -/
def re_match_lang (s : String) : Bool :=
  langShape s.toList ||
  (s.toList.getLast? == some '\n' && langShape s.toList.dropLast)

/-- Embedding of `streamlit_app.analyze_hreflang_tag`: the validation rule engine.
Returns `(warnings, errors)` in the append order of the source. -/
def analyze_hreflang_tag (lang href source_url : String)
    (all_tags : List (String × String)) : List String × List String :=
  ( -- warnings, in source append order: region-fallback check, then
   -- cross-domain check
   (if pyContainsChar lang '-' &&
       !(all_tags.any (fun t => t.1 == (pySplitChar lang '-').headD "")) then
      ["Missing region-independent link for " ++ (pySplitChar lang '-').headD ""]
    else []) ++
   (if !(strContainsSub href "sitemap") && !(pyStartsWith href source_url) then
      ["Alternate URL not in same domain"]
    else []),
   -- errors, in source append order: format check, self-reference
   -- check, URL-scheme check
   (if !(re_match_lang lang) && lang != "x-default" then
      ["Invalid hreflang format"]
    else []) ++
   (if href == source_url && !(pyContainsChar lang '-') && lang != "x-default" then
      ["Self-reference without region"]
    else []) ++
   (if !(pyStartsWith href "http://" || pyStartsWith href "https://") then
      ["Invalid URL format"]
    else []))

example : analyze_hreflang_tag "en" "https://a.com/" "https://a.com/" [] =
    ([], ["Self-reference without region"]) := by decide

example : analyze_hreflang_tag "en-us" "https://a.com/us" "https://a.com/"
    [("en-us", "https://a.com/us"), ("en-gb", "https://a.com/gb")] =
    (["Missing region-independent link for en"], []) := by decide

example : re_match_lang "en-us" = true := by decide
example : re_match_lang "x-default" = false := by decide
example : re_match_lang "EN" = false := by decide
example : re_match_lang "en\n" = true := by decide

/-- The static table of `streamlit_app.get_language_name`. -/
def languages : List (String × String) :=
  [("en", "English"), ("ar", "Arabic"), ("es", "Spanish"), ("fr", "French"),
   ("de", "German"), ("ja", "Japanese"), ("ko", "Korean"), ("zh", "Chinese"),
   ("ru", "Russian"), ("pt", "Portuguese"), ("it", "Italian"), ("nl", "Dutch"),
   ("tr", "Turkish"), ("sv", "Swedish"), ("pl", "Polish"), ("vi", "Vietnamese"),
   ("th", "Thai"), ("id", "Indonesian"), ("ms", "Malaysian"), ("hi", "Hindi")]

/-- Embedding of `streamlit_app.get_language_name`: dictionary lookup with identity
fallback (`languages.get(code, code)`). -/
def get_language_name (code : String) : String :=
  match languages.find? (fun p => p.1 == code) with
  | some p => p.2
  | none => code

/-- The static table of `streamlit_app.get_region_name`. -/
def regions : List (String × String) :=
  [("us", "United States"), ("gb", "United Kingdom"), ("ae", "United Arab Emirates"),
   ("sa", "Saudi Arabia"), ("kw", "Kuwait"), ("qa", "Qatar"), ("om", "Oman"),
   ("bh", "Bahrain"), ("eg", "Egypt"), ("iq", "Iraq"), ("jo", "Jordan"),
   ("lb", "Lebanon"), ("ly", "Libya"), ("ps", "Palestinian Territory"),
   ("sd", "Sudan"), ("so", "Somalia"), ("sy", "Syria"), ("ye", "Yemen"),
   ("au", "Australia"), ("ca", "Canada"), ("in", "India"), ("pk", "Pakistan"),
   ("bd", "Bangladesh"), ("cn", "China"), ("jp", "Japan"), ("kr", "South Korea"),
   ("de", "Germany"), ("fr", "France"), ("it", "Italy"), ("es", "Spain"),
   ("ru", "Russia"), ("br", "Brazil"), ("mx", "Mexico"), ("ar", "Argentina")]

/-- Embedding of `streamlit_app.get_region_name`: dictionary lookup with identity
fallback (`regions.get(code, code)`). -/
def get_region_name (code : String) : String :=
  match regions.find? (fun p => p.1 == code) with
  | some p => p.2
  | none => code

/-- One element of the parsed HTML document, as seen by
`soup.find_all('link', rel='alternate', hreflang=True)`: tag name, the
(multi-valued) `rel` attribute, and the optional `hreflang` / `href`
attributes (`none` = attribute absent). -/
structure HtmlElem where
  name : String
  rel : List String
  hreflang : Option String
  href : Option String
deriving DecidableEq

/-- The BeautifulSoup filter `find_all('link', rel='alternate',
hreflang=True)`: tag named `link`, `rel` containing `alternate`
(multi-valued attributes match on any value), `hreflang` present. -/
def isHreflangLink (e : HtmlElem) : Bool :=
  e.name == "link" && e.rel.contains "alternate" && e.hreflang.isSome

/-- Outcome of fetching and parsing one page: any exception inside the
`try` block of `analyze_single_url` (network error, timeout, non-2xx
raised by `raise_for_status`) is `failure` with the exception's
message; otherwise the parsed document's elements. -/
inductive FetchPage where
  | failure (msg : String)
  | success (links : List HtmlElem)

/-- The tag-extraction loop of `analyze_single_url` (lines 119–127):
lower-cases the `hreflang` value, defaults missing attributes to `""`,
and resolves a non-empty relative `href` against the page URL.  `join`
is the embedding of `urllib.parse.urljoin`; no verified property
depends on its internals, so it is passed as a parameter. -/
def extract_hreflang_tags (join : String → String → String) (url : String)
    (links : List HtmlElem) : List (String × String) :=
  (links.filter isHreflangLink).map (fun l =>
    let hreflang := pyLower (l.hreflang.getD "")
    let href0 := l.href.getD ""
    let href :=
      if href0 != "" && !(pyStartsWith href0 "http://" || pyStartsWith href0 "https://") then
        join url href0
      else href0
    (hreflang, href))

/-- One output row of `analyze_single_url` (a Python dict with fixed
keys; `warnings` and `errors` are the `'; '.join`ed message lists). -/
structure AnalysisRecord where
  url : String
  hreflang_count : Nat
  self_ref : String
  hreflang_tag : String
  language : String
  region : String
  alt_url : String
  warnings : String
  errors : String
deriving DecidableEq

/-- The single synthetic row returned by the `except` branch of
`analyze_single_url` (lines 160–171). -/
def failRecord (url e : String) : AnalysisRecord :=
  { url := url
  , hreflang_count := 0
  , self_ref := "No"
  , hreflang_tag := ""
  , language := ""
  , region := ""
  , alt_url := ""
  , warnings := ""
  , errors := "Failed to analyze: " ++ e }

/-- Embedding of `streamlit_app.analyze_single_url`, with the fetch outcome passed
in as `page`. -/
def analyze_single_url (join : String → String → String) (url : String)
    (page : FetchPage) : List AnalysisRecord :=
  match page with
  | .failure e => [failRecord url e]
  | .success links =>
    let hreflang_tags := extract_hreflang_tags join url links
    let self_ref := hreflang_tags.any (fun t => t.2 == url)
    hreflang_tags.map (fun t =>
      let we := analyze_hreflang_tag t.1 t.2 url hreflang_tags
      let lang_parts := pySplitChar t.1 '-'
      { url := url
      , hreflang_count := hreflang_tags.length
      , self_ref := if self_ref then "Yes" else "No"
      , hreflang_tag := t.1
      , language := get_language_name (lang_parts.headD "")
      , region := get_region_name (lang_parts.getD 1 "")
      , alt_url := t.2
      , warnings := pyJoinSemi we.1
      , errors := pyJoinSemi we.2 })

/-- A fetched-and-parsed sitemap document: either a sitemap index (the
`<sitemap><loc>` texts) or any other root, from which the `<url><loc>`
texts are read (`urlset`). -/
inductive XmlSitemap where
  | sitemapindex (locs : List String)
  | urlset (locs : List String)
deriving DecidableEq

/-- Embedding of `streamlit_app.extract_urls_from_sitemap`.  `fetch` embeds the
network and XML parse: `none` means any exception in the `try` block.
Returns `(collected urls, sitemap URLs whose processing failed)`; the
second component embeds the `st.error` report of the `except` branch.
The `fuel` argument models the Python call stack (the source recursion
is unguarded); every theorem below holds for any sufficient fuel. -/
def extract_urls_from_sitemap (fetch : String → Option XmlSitemap) :
    Nat → String → List String × List String
  | 0, _ => ([], [])
  | n + 1, u =>
    match fetch u with
    | none => ([], [u])
    | some (.urlset locs) => (locs, [])
    | some (.sitemapindex subs) =>
      subs.foldl (fun acc s =>
        let r := extract_urls_from_sitemap fetch n s
        (acc.1 ++ r.1, acc.2 ++ r.2)) ([], [])

/-- The statistics computed by `streamlit_app.generate_summary`
(lines 179–206); the surrounding report text is presentation.  The two
`common_*` dictionaries are embedded as their lookup functions
(message ↦ number of occurrences, `0` for absent keys; the source loop
skips empty fragments of the `'; '`-split, so the empty message is
never a key). -/
structure SummaryStats where
  total_entries : Nat
  unique_urls : Nat
  languages_detected : Nat
  regions_detected : Nat
  warnings_found : Nat
  errors_found : Nat
  common_warnings : String → Nat
  common_errors : String → Nat

/-- Embedding of `streamlit_app.generate_summary`, statistics part. -/
def generate_summary_stats (results_data : List AnalysisRecord) : SummaryStats :=
  { total_entries := results_data.length
  , unique_urls := ((results_data.map (fun r => r.url)).dedup).length
  , languages_detected :=
      (((results_data.filter (fun r => r.language != "")).map (fun r => r.language)).dedup).length
  , regions_detected :=
      (((results_data.filter (fun r => r.region != "")).map (fun r => r.region)).dedup).length
  , warnings_found := (results_data.filter (fun r => r.warnings != "")).length
  , errors_found := (results_data.filter (fun r => r.errors != "")).length
  , common_warnings := fun msg =>
      if msg = "" then 0
      else (results_data.flatMap (fun r => pySplitSemi r.warnings)).count msg
  , common_errors := fun msg =>
      if msg = "" then 0
      else (results_data.flatMap (fun r => pySplitSemi r.errors)).count msg }

/-- Keys of a Python dict built by repeated insertion: first-seen
order, duplicates dropped.  `seen` accumulates the keys already
emitted. -/
def firstSeenAux : List String → List String → List String
  | [], _ => []
  | u :: us, seen =>
    if u ∈ seen then firstSeenAux us seen else u :: firstSeenAux us (u :: seen)

/-- First occurrences of a list of strings, in order. -/
def firstSeen (l : List String) : List String := firstSeenAux l []

/-- The `url_groups` dict of `streamlit_app.generate_fixes`
(lines 227–231): keys in first-seen order, each key mapped to all its
records in input order. -/
def groupByUrl (data : List AnalysisRecord) : List (String × List AnalysisRecord) :=
  (firstSeen (data.map (fun r => r.url))).map
    (fun u => (u, data.filter (fun r => r.url == u)))

/-- The content of one per-URL block of the fixes report
(lines 233–266): whether the MISSING SELF-REFERENCE suggestion is
emitted, the languages for which a MISSING REGION-INDEPENDENT TAG
suggestion is emitted, and the entries that get a warning/error line.
The report text itself is presentation. -/
structure FixBlock where
  url : String
  missing_self_ref : Bool
  missing_fallback_langs : List String
  issue_entries : List AnalysisRecord
deriving DecidableEq

/-- The per-URL body of the `for url, entries in url_groups.items()`
loop of `generate_fixes`.  (`languages_with_regions` is a Python set,
whose iteration order is unspecified; it is embedded in first-seen
order, which only affects the order of the emitted suggestions.) -/
def makeFixBlock (u : String) (entries : List AnalysisRecord) : FixBlock :=
  { url := u
  , missing_self_ref := !(entries.any (fun e => e.self_ref == "Yes"))
  , missing_fallback_langs :=
      (firstSeen ((entries.filter (fun e => pyContainsChar e.hreflang_tag '-')).map
          (fun e => (pySplitChar e.hreflang_tag '-').headD ""))).filter
        (fun lang => !(entries.any (fun e => e.hreflang_tag == lang)))
  , issue_entries := entries.filter (fun e => e.warnings != "" || e.errors != "") }

/-- Embedding of `streamlit_app.generate_fixes`, structured: one block per source
URL, in first-seen order. -/
def generate_fixes_blocks (data : List AnalysisRecord) : List FixBlock :=
  (groupByUrl data).map (fun g => makeFixBlock g.1 g.2)

/-! ## Helper lemmas -/

lemma mem_if_singleton {b : Bool} {s a : String}
    (h : s ∈ (if b then [a] else ([] : List String))) : s = a ∧ b = true := by
  cases b <;> simp_all

lemma splitOnCharAux_ne_nil (sep : Char) (cs : List Char) :
    splitOnCharAux sep cs ≠ [] := by
  induction cs with
  | nil => simp [splitOnCharAux]
  | cons c cs ih =>
    simp only [splitOnCharAux]
    split
    · simp
    · split <;> simp

lemma sep_not_mem_head_splitOnCharAux (sep : Char) (cs : List Char) :
    sep ∉ (splitOnCharAux sep cs).headD [] := by
  induction cs with
  | nil => simp [splitOnCharAux]
  | cons c cs ih =>
    simp only [splitOnCharAux]
    by_cases h : c == sep
    · simp [h]
    · rw [if_neg (by simp [h])]
      cases hs : splitOnCharAux sep cs with
      | nil => exact absurd hs (splitOnCharAux_ne_nil sep cs)
      | cons p ps =>
        rw [hs] at ih
        simp only [List.headD_cons] at ih ⊢
        intro hm
        rcases List.mem_cons.1 hm with rfl | hm
        · exact h (beq_self_eq_true sep)
        · exact ih hm

/-- The first field of a Python `split` on a separator never contains
the separator. -/
lemma pyContainsChar_head_pySplitChar (s : String) (sep : Char) :
    pyContainsChar ((pySplitChar s sep).headD "") sep = false := by
  unfold pySplitChar
  obtain ⟨p, ps, hs⟩ := List.exists_cons_of_ne_nil (splitOnCharAux_ne_nil sep s.toList)
  have hp := sep_not_mem_head_splitOnCharAux sep s.toList
  rw [hs] at hp ⊢
  simp only [List.headD_cons] at hp
  simp only [List.map_cons, List.headD_cons]
  simpa [pyContainsChar] using hp

/-- A tag containing the separator differs from the head of its split. -/
lemma ne_head_of_pyContainsChar {s : String} {sep : Char}
    (h : pyContainsChar s sep = true) : s ≠ (pySplitChar s sep).headD "" := by
  intro he
  have := pyContainsChar_head_pySplitChar s sep
  rw [← he] at this
  rw [h] at this
  exact absurd this (by decide)

/-! ## C1: the format check -/

/-- C1.  For every language tag accepted by the format regex
`^[a-z]{2}(-[a-z]{2})?$` (Python `re.match` semantics, see
`re_match_lang`) or equal to the literal `x-default`, the rule engine
adds no "Invalid hreflang format" error; for every other string the
error list contains that message exactly once. -/
theorem format_check_exact (lang href src : String) (tags : List (String × String)) :
    ((re_match_lang lang = true ∨ lang = "x-default") →
      "Invalid hreflang format" ∉ (analyze_hreflang_tag lang href src tags).2)
    ∧ ((re_match_lang lang = false ∧ lang ≠ "x-default") →
      ((analyze_hreflang_tag lang href src tags).2).count "Invalid hreflang format" = 1) := by
  constructor
  · intro h hmem
    simp only [analyze_hreflang_tag, List.mem_append] at hmem
    rcases hmem with (hm | hm) | hm
    · obtain ⟨_, hb⟩ := mem_if_singleton hm
      rcases h with h | h
      · rw [h] at hb; simp at hb
      · rw [h] at hb; simp at hb
    · exact absurd (mem_if_singleton hm).1 (by decide)
    · exact absurd (mem_if_singleton hm).1 (by decide)
  · rintro ⟨h1, h2⟩
    have hb : (!(re_match_lang lang) && lang != "x-default") = true := by
      simp [h1, bne_iff_ne, h2]
    have e2 : ∀ b : Bool,
        (if b then ["Self-reference without region"] else []).count "Invalid hreflang format" = 0 := by
      intro b; cases b <;> decide
    have e3 : ∀ b : Bool,
        (if b then ["Invalid URL format"] else []).count "Invalid hreflang format" = 0 := by
      intro b; cases b <;> decide
    simp only [analyze_hreflang_tag, hb, if_true, List.count_append, e2, e3]
    decide

/-- Witness for C1 at concrete inputs: `"en"` passes the format check,
`"english"` yields exactly one format error. -/
theorem format_check_exact_witness :
    ("Invalid hreflang format" ∉
      (analyze_hreflang_tag "en" "https://a.com/x" "https://a.com/" []).2)
    ∧ (((analyze_hreflang_tag "english" "https://a.com/x" "https://a.com/" []).2).count
        "Invalid hreflang format" = 1) :=
  ⟨(format_check_exact "en" "https://a.com/x" "https://a.com/" []).1 (Or.inl (by decide)),
   (format_check_exact "english" "https://a.com/x" "https://a.com/" []).2
     ⟨by decide, by decide⟩⟩

/-! ## C5: the self-reference check -/

/-- C5.  When the target URL equals the source URL (here the same
string `src` in both roles), the tag has no `-` and is not
`x-default`, the error list contains "Self-reference without region";
with a tag containing `-` (a region) or equal to `x-default`, the
same declaration carries no such error. -/
theorem self_reference_check (lang src : String) (tags : List (String × String))
    (h1 : pyContainsChar lang '-' = false) (h2 : lang ≠ "x-default") :
    ("Self-reference without region" ∈ (analyze_hreflang_tag lang src src tags).2)
    ∧ (∀ lang2, (pyContainsChar lang2 '-' = true ∨ lang2 = "x-default") →
        "Self-reference without region" ∉ (analyze_hreflang_tag lang2 src src tags).2) := by
  constructor
  · have hb : (src == src && !(pyContainsChar lang '-') && lang != "x-default") = true := by
      simp [h1, bne_iff_ne, h2]
    simp only [analyze_hreflang_tag, hb, if_true, List.mem_append]
    exact Or.inl (Or.inr (List.mem_singleton.mpr rfl))
  · intro lang2 h hmem
    simp only [analyze_hreflang_tag, List.mem_append] at hmem
    rcases hmem with (hm | hm) | hm
    · exact absurd (mem_if_singleton hm).1 (by decide)
    · obtain ⟨_, hb⟩ := mem_if_singleton hm
      rcases h with h | h
      · rw [h] at hb; simp at hb
      · rw [h] at hb; simp at hb
    · exact absurd (mem_if_singleton hm).1 (by decide)

/-- Witness for C5 at concrete inputs: a bare `en` self-reference is
flagged, an `en-us` self-reference is not. -/
theorem self_reference_check_witness :
    ("Self-reference without region" ∈
      (analyze_hreflang_tag "en" "https://a.com/" "https://a.com/" []).2)
    ∧ ("Self-reference without region" ∉
      (analyze_hreflang_tag "en-us" "https://a.com/" "https://a.com/" []).2) :=
  ⟨(self_reference_check "en" "https://a.com/" [] (by decide) (by decide)).1,
   (self_reference_check "en" "https://a.com/" [] (by decide) (by decide)).2
     "en-us" (Or.inl (by decide))⟩

/-! ## C6: the region-fallback check on a two-declaration page -/

/-- C6.  On a page declaring `en-us -> A` and `en-gb -> B` and no bare
`en`, both declarations carry the "Missing region-independent link for
en" warning; adding a declaration `en -> C` to the page removes it
from both. -/
theorem region_fallback_pair (A B C src : String) :
    ("Missing region-independent link for en" ∈
      (analyze_hreflang_tag "en-us" A src [("en-us", A), ("en-gb", B)]).1
     ∧ "Missing region-independent link for en" ∈
      (analyze_hreflang_tag "en-gb" B src [("en-us", A), ("en-gb", B)]).1)
    ∧ ("Missing region-independent link for en" ∉
        (analyze_hreflang_tag "en-us" A src [("en-us", A), ("en-gb", B), ("en", C)]).1
       ∧ "Missing region-independent link for en" ∉
        (analyze_hreflang_tag "en-gb" B src [("en-us", A), ("en-gb", B), ("en", C)]).1) := by
  refine ⟨⟨?_, ?_⟩, ?_, ?_⟩
  · have hany : (([("en-us", A), ("en-gb", B)] : List (String × String)).any
        (fun t => t.1 == (pySplitChar "en-us" '-').headD "")) = false := by
      simp only [List.any_cons, List.any_nil, Bool.or_false]
      decide
    have hb : (pyContainsChar "en-us" '-' &&
        !(([("en-us", A), ("en-gb", B)] : List (String × String)).any
          (fun t => t.1 == (pySplitChar "en-us" '-').headD ""))) = true := by
      rw [hany]; decide
    simp only [analyze_hreflang_tag, hb, if_true]
    exact List.mem_append_left _ (by decide)
  · have hany : (([("en-us", A), ("en-gb", B)] : List (String × String)).any
        (fun t => t.1 == (pySplitChar "en-gb" '-').headD "")) = false := by
      simp only [List.any_cons, List.any_nil, Bool.or_false]
      decide
    have hb : (pyContainsChar "en-gb" '-' &&
        !(([("en-us", A), ("en-gb", B)] : List (String × String)).any
          (fun t => t.1 == (pySplitChar "en-gb" '-').headD ""))) = true := by
      rw [hany]; decide
    simp only [analyze_hreflang_tag, hb, if_true]
    exact List.mem_append_left _ (by decide)
  · have hany : (([("en-us", A), ("en-gb", B), ("en", C)] : List (String × String)).any
        (fun t => t.1 == (pySplitChar "en-us" '-').headD "")) = true := by
      simp only [List.any_cons, List.any_nil, Bool.or_false]
      decide
    have hb : (pyContainsChar "en-us" '-' &&
        !(([("en-us", A), ("en-gb", B), ("en", C)] : List (String × String)).any
          (fun t => t.1 == (pySplitChar "en-us" '-').headD ""))) = false := by
      rw [hany]; decide
    simp only [analyze_hreflang_tag, hb]
    intro hmem
    rcases List.mem_append.1 hmem with hm | hm
    · rw [if_neg (by decide)] at hm
      exact absurd hm (by decide)
    · exact absurd (mem_if_singleton hm).1 (by decide)
  · have hany : (([("en-us", A), ("en-gb", B), ("en", C)] : List (String × String)).any
        (fun t => t.1 == (pySplitChar "en-gb" '-').headD "")) = true := by
      simp only [List.any_cons, List.any_nil, Bool.or_false]
      decide
    have hb : (pyContainsChar "en-gb" '-' &&
        !(([("en-us", A), ("en-gb", B), ("en", C)] : List (String × String)).any
          (fun t => t.1 == (pySplitChar "en-gb" '-').headD ""))) = false := by
      rw [hany]; decide
    simp only [analyze_hreflang_tag, hb]
    intro hmem
    rcases List.mem_append.1 hmem with hm | hm
    · rw [if_neg (by decide)] at hm
      exact absurd hm (by decide)
    · exact absurd (mem_if_singleton hm).1 (by decide)

/-- Witness for C6 at concrete URLs. -/
theorem region_fallback_pair_witness :
    ("Missing region-independent link for en" ∈
      (analyze_hreflang_tag "en-us" "https://a.com/us" "https://a.com/"
        [("en-us", "https://a.com/us"), ("en-gb", "https://a.com/gb")]).1
     ∧ "Missing region-independent link for en" ∈
      (analyze_hreflang_tag "en-gb" "https://a.com/gb" "https://a.com/"
        [("en-us", "https://a.com/us"), ("en-gb", "https://a.com/gb")]).1)
    ∧ ("Missing region-independent link for en" ∉
        (analyze_hreflang_tag "en-us" "https://a.com/us" "https://a.com/"
          [("en-us", "https://a.com/us"), ("en-gb", "https://a.com/gb"),
           ("en", "https://a.com/en")]).1
       ∧ "Missing region-independent link for en" ∉
        (analyze_hreflang_tag "en-gb" "https://a.com/gb" "https://a.com/"
          [("en-us", "https://a.com/us"), ("en-gb", "https://a.com/gb"),
           ("en", "https://a.com/en")]).1) :=
  region_fallback_pair "https://a.com/us" "https://a.com/gb" "https://a.com/en"
    "https://a.com/"

/-! ## C7: `x-default` does not satisfy the region fallback -/

/-- C7.  On a page declaring `lang -> A` (with `lang` containing a
region separator) and `x-default -> B`, and therefore no declaration
tagged with the bare primary subtag, the region-bearing declaration
still carries the missing-region-independent-link warning: the
`x-default` declaration does not count as a fallback. -/
theorem xdefault_not_region_fallback (lang A B src : String)
    (h : pyContainsChar lang '-' = true) :
    "Missing region-independent link for " ++ (pySplitChar lang '-').headD "" ∈
      (analyze_hreflang_tag lang A src [(lang, A), ("x-default", B)]).1 := by
  have hne : lang ≠ (pySplitChar lang '-').headD "" := ne_head_of_pyContainsChar h
  have hxd : "x-default" ≠ (pySplitChar lang '-').headD "" := by
    intro he
    have hhead := pyContainsChar_head_pySplitChar lang '-'
    rw [← he] at hhead
    exact absurd hhead (by decide)
  have hany : (([(lang, A), ("x-default", B)] : List (String × String)).any
      (fun t => t.1 == (pySplitChar lang '-').headD "")) = false := by
    simp only [List.any_cons, List.any_nil, Bool.or_false]
    rw [beq_eq_false_iff_ne.mpr hne, beq_eq_false_iff_ne.mpr hxd]
    rfl
  have hb : (pyContainsChar lang '-' &&
      !(([(lang, A), ("x-default", B)] : List (String × String)).any
        (fun t => t.1 == (pySplitChar lang '-').headD ""))) = true := by
    rw [h, hany]; rfl
  simp only [analyze_hreflang_tag, hb, if_true]
  exact List.mem_append_left _ (List.mem_singleton.mpr rfl)

/-- Witness for C7 at a concrete input: on a page `{xx-yy -> A,
x-default -> B}`, the `xx-yy` declaration is warned about the missing
bare `xx`. -/
theorem xdefault_not_region_fallback_witness :
    "Missing region-independent link for " ++ (pySplitChar "xx-yy" '-').headD "" ∈
      (analyze_hreflang_tag "xx-yy" "https://a.com/yy" "https://a.com/"
        [("xx-yy", "https://a.com/yy"), ("x-default", "https://a.com/")]).1 :=
  xdefault_not_region_fallback "xx-yy" "https://a.com/yy" "https://a.com/"
    "https://a.com/" (by decide)

lemma mem_firstSeenAux {a : String} :
    ∀ (l seen : List String), a ∈ firstSeenAux l seen ↔ a ∈ l ∧ a ∉ seen := by
  intro l
  induction l with
  | nil => intro seen; simp [firstSeenAux]
  | cons u us ih =>
    intro seen
    simp only [firstSeenAux]
    by_cases h : u ∈ seen
    · rw [if_pos h, ih]
      constructor
      · rintro ⟨h1, h2⟩
        exact ⟨List.mem_cons_of_mem _ h1, h2⟩
      · rintro ⟨h1, h2⟩
        rcases List.mem_cons.1 h1 with rfl | h1
        · exact absurd h h2
        · exact ⟨h1, h2⟩
    · rw [if_neg h]
      simp only [List.mem_cons, ih]
      constructor
      · rintro (rfl | ⟨h1, h2⟩)
        · exact ⟨Or.inl rfl, h⟩
        · exact ⟨Or.inr h1, fun hs => h2 (Or.inr hs)⟩
      · rintro ⟨rfl | h1, h2⟩
        · exact Or.inl rfl
        · by_cases hau : a = u
          · exact Or.inl hau
          · exact Or.inr ⟨h1, fun hs => hs.elim hau h2⟩

lemma mem_firstSeen {a : String} {l : List String} : a ∈ firstSeen l ↔ a ∈ l := by
  simp [firstSeen, mem_firstSeenAux]

/-! ## C10: a fetch-failure URL gets the missing-self-reference fix -/

/-- C10.  A source URL whose only record is the synthetic fetch-failure
row has no record with the self-reference flag set (the failure row
carries `self_ref = "No"`), so the fix generator emits the MISSING
SELF-REFERENCE suggestion for it: some block of the fixes report has
that URL with `missing_self_ref` set. -/
theorem fixes_missing_self_reference (data : List AnalysisRecord) (url msg : String)
    (h : data.filter (fun r => r.url == url) = [failRecord url msg]) :
    (generate_fixes_blocks data).any
      (fun b => b.url == url && b.missing_self_ref) = true := by
  have hmem : failRecord url msg ∈ data := by
    have hin : failRecord url msg ∈ data.filter (fun r => r.url == url) := by
      rw [h]; exact List.mem_singleton.mpr rfl
    exact List.mem_of_mem_filter hin
  have hurl : url ∈ data.map (fun r => r.url) :=
    List.mem_map.mpr ⟨failRecord url msg, hmem, rfl⟩
  have hkey : url ∈ firstSeen (data.map (fun r => r.url)) := mem_firstSeen.mpr hurl
  apply List.any_eq_true.mpr
  refine ⟨makeFixBlock url (data.filter (fun r => r.url == url)), ?_, ?_⟩
  · exact List.mem_map.mpr ⟨(url, data.filter (fun r => r.url == url)),
      List.mem_map.mpr ⟨url, hkey, rfl⟩, rfl⟩
  · rw [h]
    simp [makeFixBlock, failRecord]

/-- Witness for C10 at a concrete collection consisting of one
fetch-failure record. -/
theorem fixes_missing_self_reference_witness :
    (generate_fixes_blocks [failRecord "https://a.com/" "timed out"]).any
      (fun b => b.url == "https://a.com/" && b.missing_self_ref) = true :=
  fixes_missing_self_reference [failRecord "https://a.com/" "timed out"]
    "https://a.com/" "timed out" (by decide)

/-! ## C8: summary statistics are order-independent -/

/-- C8.  Generating the summary from any permutation of the record
collection yields the same total count, distinct-URL/language/region
counts, warning/error counts, and the same per-message frequency
histograms. -/
theorem summary_order_independent (l l2 : List AnalysisRecord) (h : l.Perm l2) :
    generate_summary_stats l = generate_summary_stats l2 := by
  simp only [generate_summary_stats, SummaryStats.mk.injEq]
  refine ⟨h.length_eq, ?_, ?_, ?_, ?_, ?_, ?_, ?_⟩
  · exact ((h.map _).dedup).length_eq
  · exact (((h.filter _).map _).dedup).length_eq
  · exact (((h.filter _).map _).dedup).length_eq
  · exact (h.filter _).length_eq
  · exact (h.filter _).length_eq
  · funext msg
    by_cases hm : msg = ""
    · simp [hm]
    · simp only [if_neg hm]
      exact (h.flatMap_right _).count_eq msg
  · funext msg
    by_cases hm : msg = ""
    · simp [hm]
    · simp only [if_neg hm]
      exact (h.flatMap_right _).count_eq msg

/-- Witness for C8 at a concrete two-record collection and its swap. -/
theorem summary_order_independent_witness :
    generate_summary_stats
        [failRecord "https://a.com/" "boom", failRecord "https://b.com/" "late"]
      = generate_summary_stats
        [failRecord "https://b.com/" "late", failRecord "https://a.com/" "boom"] :=
  summary_order_independent _ _ (List.Perm.swap _ _ _)

/-- A concrete parsed page used by witnesses: one matching hreflang
link element and one non-matching element. -/
def sampleLinks : List HtmlElem :=
  [{ name := "link", rel := ["alternate"], hreflang := some "en",
     href := some "https://a.com/" },
   { name := "meta", rel := [], hreflang := none, href := none }]

/-- A concrete embedding of `urljoin` used by witnesses. -/
def sampleJoin : String → String → String := fun b r => b ++ r

/-! ## C3: fetch failure degrades to exactly one error row -/

/-- C3.  For a page URL whose fetch fails (any exception: network
error, non-2xx status raised by `raise_for_status`, timeout), the
analysis returns exactly one record with zero count, empty tag,
language, region, target and warnings, and a non-empty error
message — the failure becomes a data row instead of propagating. -/
theorem fetch_failure_single_record (join : String → String → String) (url e : String) :
    analyze_single_url join url (.failure e) = [failRecord url e]
    ∧ (failRecord url e).url = url
    ∧ (failRecord url e).hreflang_count = 0
    ∧ (failRecord url e).hreflang_tag = ""
    ∧ (failRecord url e).language = ""
    ∧ (failRecord url e).region = ""
    ∧ (failRecord url e).alt_url = ""
    ∧ (failRecord url e).warnings = ""
    ∧ (failRecord url e).errors ≠ "" := by
  refine ⟨rfl, rfl, rfl, rfl, rfl, rfl, rfl, rfl, ?_⟩
  intro hc
  have hc2 : "Failed to analyze: " ++ e = "" := hc
  have hlen := congrArg String.length hc2
  rw [String.length_append] at hlen
  have : ("Failed to analyze: " : String).length = 19 := by decide
  rw [this] at hlen
  have hz : ("" : String).length = 0 := by decide
  rw [hz] at hlen
  omega

/-- Witness for C3 at a concrete input: a timed-out page yields the
single synthetic failure row. -/
theorem fetch_failure_single_record_witness :
    analyze_single_url sampleJoin "https://a.com/" (.failure "timeout") =
        [failRecord "https://a.com/" "timeout"]
      ∧ (failRecord "https://a.com/" "timeout").url = "https://a.com/"
      ∧ (failRecord "https://a.com/" "timeout").hreflang_count = 0
      ∧ (failRecord "https://a.com/" "timeout").hreflang_tag = ""
      ∧ (failRecord "https://a.com/" "timeout").language = ""
      ∧ (failRecord "https://a.com/" "timeout").region = ""
      ∧ (failRecord "https://a.com/" "timeout").alt_url = ""
      ∧ (failRecord "https://a.com/" "timeout").warnings = ""
      ∧ (failRecord "https://a.com/" "timeout").errors ≠ "" :=
  fetch_failure_single_record sampleJoin "https://a.com/" "timeout"

/-! ## C4: `hreflang_count` is the page-wide tag count on every row -/

/-- C4.  On a successfully fetched page, every emitted record carries
`hreflang_count` equal to the number of `<link rel="alternate"
hreflang>` elements extracted from the page, so the field is identical
across all records of that page. -/
theorem hreflang_count_uniform (join : String → String → String) (url : String)
    (links : List HtmlElem) :
    (∀ r ∈ analyze_single_url join url (.success links),
      r.hreflang_count = (links.filter isHreflangLink).length)
    ∧ (∀ r ∈ analyze_single_url join url (.success links),
       ∀ r2 ∈ analyze_single_url join url (.success links),
        r.hreflang_count = r2.hreflang_count) := by
  have key : ∀ r ∈ analyze_single_url join url (.success links),
      r.hreflang_count = (links.filter isHreflangLink).length := by
    intro r hr
    simp only [analyze_single_url] at hr
    obtain ⟨t, ht, rfl⟩ := List.mem_map.1 hr
    show (extract_hreflang_tags join url links).length = (links.filter isHreflangLink).length
    simp [extract_hreflang_tags]
  exact ⟨key, fun r hr r2 hr2 => (key r hr).trans (key r2 hr2).symm⟩

/-- Witness for C4 at a concrete input: the row emitted for
`sampleLinks` carries `hreflang_count` equal to the number of matching
link elements. -/
theorem hreflang_count_uniform_witness :
    ((analyze_single_url sampleJoin "https://a.com/" (.success sampleLinks)).headD
        (failRecord "" "")
      ∈ analyze_single_url sampleJoin "https://a.com/" (.success sampleLinks))
    ∧ ((analyze_single_url sampleJoin "https://a.com/" (.success sampleLinks)).headD
        (failRecord "" "")).hreflang_count = (sampleLinks.filter isHreflangLink).length :=
  ⟨by decide,
   (hreflang_count_uniform sampleJoin "https://a.com/" sampleLinks).1 _ (by decide)⟩

/-! ## C9: a fetched page with zero declarations yields no rows -/

/-- C9.  If the fetch and parse succeed but the document contains no
`<link>` element with relation `alternate` and an `hreflang`
attribute, the analysis returns the empty record list: no synthetic
row is produced for a successfully fetched page. -/
theorem no_declarations_no_rows (join : String → String → String) (url : String)
    (links : List HtmlElem) (h : ∀ e ∈ links, isHreflangLink e = false) :
    analyze_single_url join url (.success links) = [] := by
  have hf : links.filter isHreflangLink = [] := by
    rw [List.filter_eq_nil_iff]
    intro a ha
    simp [h a ha]
  simp [analyze_single_url, extract_hreflang_tags, hf]

/-- Witness for C9 at a concrete input: a page containing only a
stylesheet link and a bare element yields no records. -/
theorem no_declarations_no_rows_witness :
    analyze_single_url (fun b r => b ++ r) "https://a.com/"
      (.success [{ name := "link", rel := ["stylesheet"], hreflang := none,
                   href := some "/style.css" },
                 { name := "a", rel := [], hreflang := some "en",
                   href := some "https://a.com/en" }]) = [] :=
  no_declarations_no_rows (fun b r => b ++ r) "https://a.com/" _ (by decide)

/-! ## C2: sitemap-index expansion and per-sitemap failure isolation -/

/-- C2.  For a sitemap index referencing two urlset sitemaps with 3 and
5 `<loc>` entries: resolution returns the 8 URLs in index-then-document
order with nothing reported failed; and if either sub-sitemap's
fetch/parse fails, resolution returns the surviving sitemap's URLs
(the 5 when the first fails, the 3 when the second fails; the failed
one contributes the empty sequence) and reports the failed sitemap URL
instead of aborting the whole resolution.  `n + 2` is any recursion
budget deep enough for one index level. -/
theorem sitemap_index_expansion (fetch : String → Option XmlSitemap)
    (idx s1 s2 : String) (l1 l2 : List String) (n : Nat)
    (hidx : fetch idx = some (.sitemapindex [s1, s2]))
    (hl1 : l1.length = 3) (hl2 : l2.length = 5) :
    (fetch s1 = some (.urlset l1) → fetch s2 = some (.urlset l2) →
      extract_urls_from_sitemap fetch (n + 2) idx = (l1 ++ l2, [])
      ∧ (l1 ++ l2).length = 8)
    ∧ (fetch s1 = none → fetch s2 = some (.urlset l2) →
      extract_urls_from_sitemap fetch (n + 2) idx = (l2, [s1]))
    ∧ (fetch s1 = some (.urlset l1) → fetch s2 = none →
      extract_urls_from_sitemap fetch (n + 2) idx = (l1, [s2])) := by
  refine ⟨?_, ?_, ?_⟩
  · intro h1 h2
    constructor
    · simp only [extract_urls_from_sitemap, hidx, List.foldl, h1, h2]
      simp
    · rw [List.length_append, hl1, hl2]
  · intro h1 h2
    simp only [extract_urls_from_sitemap, hidx, List.foldl, h1, h2]
    simp
  · intro h1 h2
    simp only [extract_urls_from_sitemap, hidx, List.foldl, h1, h2]
    simp

/-- Witness for C2 at concrete fetch environments: the all-success
scenario, the first-sub-sitemap-fails scenario (the 5 URLs survive),
and the second-sub-sitemap-fails scenario (the 3 URLs survive). -/
theorem sitemap_index_expansion_witness :
    (extract_urls_from_sitemap
      (fun u =>
        if u = "https://s.com/i.xml" then
          some (.sitemapindex ["https://s.com/a.xml", "https://s.com/b.xml"])
        else if u = "https://s.com/a.xml" then some (.urlset ["p1", "p2", "p3"])
        else if u = "https://s.com/b.xml" then
          some (.urlset ["q1", "q2", "q3", "q4", "q5"])
        else none)
      2 "https://s.com/i.xml" =
      (["p1", "p2", "p3"] ++ ["q1", "q2", "q3", "q4", "q5"], []))
    ∧ (extract_urls_from_sitemap
      (fun u =>
        if u = "https://s.com/i.xml" then
          some (.sitemapindex ["https://s.com/a.xml", "https://s.com/b.xml"])
        else if u = "https://s.com/b.xml" then
          some (.urlset ["q1", "q2", "q3", "q4", "q5"])
        else none)
      2 "https://s.com/i.xml" =
      (["q1", "q2", "q3", "q4", "q5"], ["https://s.com/a.xml"]))
    ∧ (extract_urls_from_sitemap
      (fun u =>
        if u = "https://s.com/i.xml" then
          some (.sitemapindex ["https://s.com/a.xml", "https://s.com/b.xml"])
        else if u = "https://s.com/a.xml" then some (.urlset ["p1", "p2", "p3"])
        else none)
      2 "https://s.com/i.xml" =
      (["p1", "p2", "p3"], ["https://s.com/b.xml"])) :=
  ⟨((sitemap_index_expansion _ "https://s.com/i.xml" "https://s.com/a.xml"
      "https://s.com/b.xml" ["p1", "p2", "p3"] ["q1", "q2", "q3", "q4", "q5"] 0
      (by decide) (by decide) (by decide)).1 (by decide) (by decide)).1,
   (sitemap_index_expansion _ "https://s.com/i.xml" "https://s.com/a.xml"
      "https://s.com/b.xml" ["p1", "p2", "p3"] ["q1", "q2", "q3", "q4", "q5"] 0
      (by decide) (by decide) (by decide)).2.1 (by decide) (by decide),
   (sitemap_index_expansion _ "https://s.com/i.xml" "https://s.com/a.xml"
      "https://s.com/b.xml" ["p1", "p2", "p3"] ["q1", "q2", "q3", "q4", "q5"] 0
      (by decide) (by decide) (by decide)).2.2 (by decide) (by decide)⟩
